import Mathlib

/-!
Verification development for the grokchat conversation-orchestration pipeline.

The definitions below are a shallow embedding of the repository's TypeScript
source: the SQLite-backed stores (`server/db.ts`), the Express endpoints of the
API server, the Mem0 memory provider (`server/memoryProvider.ts`), and the
client-side category-resolution state machine (`src/App.tsx`).  SQL rows become
Lean structures, the database becomes an explicit `Store` value threaded through
the operations, JSON-encoded columns (`tags`, `attachments`) are modelled as
`Option` of the decoded value (the JSON encoding is injective on these shapes),
and asynchronous collaborator calls become explicit `Except`-valued parameters
recording whether the collaborator succeeded or threw.
-/

namespace GrokChat

/-- ASCII lowering of one character, the effect of JavaScript
`String.prototype.toLowerCase` on the ASCII text the classifier inspects. -/
def lowerChar (c : Char) : Char :=
  if 65 ≤ c.toNat ∧ c.toNat ≤ 90 then Char.ofNat (c.toNat + 32) else c

/-- Model of `s.toLowerCase()` on a JavaScript string, as a map over the characters. -/
def lowerStr (s : String) : String :=
  ⟨s.data.map lowerChar⟩

/-- Is `pat` a prefix of `s` (character lists)? -/
def prefixMatch : List Char → List Char → Bool
  | [], _ => true
  | _ :: _, [] => false
  | p :: ps, c :: cs => p == c && prefixMatch ps cs

/-- Does `pat` occur as a contiguous run inside `s` (character lists)? -/
def infixMatch (pat : List Char) : List Char → Bool
  | [] => prefixMatch pat []
  | c :: cs => prefixMatch pat (c :: cs) || infixMatch pat cs

/-- JavaScript `s.includes(pat)`: substring containment. -/
def strContains (s pat : String) : Bool :=
  infixMatch pat.data s.data

/-- JavaScript `s.startsWith(pat)`. -/
def strStarts (s pat : String) : Bool :=
  prefixMatch pat.data s.data

/-- The JavaScript `x || d` idiom on a possibly-absent string: the default is
taken when the value is missing or is the empty string (both falsy). -/
def jsOr : Option String → String → String
  | some s, d => if s = "" then d else s
  | none, d => d

/-- The JavaScript `x || null` idiom: an absent or empty string becomes null. -/
def jsOrNull : Option String → Option String
  | some s => if s = "" then none else some s
  | none => none

/-- An apostrophe, kept out of string literals (code point 39). -/
def apos : String :=
  String.singleton (Char.ofNat 39)

/-! ## The SQLite store (`server/db.ts`, schema and row types) -/

/-- A row of the `sessions` table. -/
structure Session where
  id : String
  user_id : String
  created_at : Int
  updated_at : Int
deriving Repr, DecidableEq

/-- A row of the `messages` table (`DBMessage` in `db.ts`).  The `tags` column
stores `JSON.stringify(tags)` or SQL NULL; it is modelled as the decoded
`Option (List String)`.  Likewise `attachments` stores JSON metadata or NULL. -/
structure AttachmentMeta where
  name : String
  size : Nat
  type : String
  mimeType : Option String
deriving Repr, DecidableEq

structure DBMessage where
  id : String
  session_id : String
  role : String
  content : String
  timestamp : String
  tags : Option (List String)
  attachments : Option (List AttachmentMeta)
deriving Repr, DecidableEq

/-- A row of the `categories` table (`DBCategory` in `db.ts`). -/
structure DBCategory where
  id : String
  title : String
  description : Option String
  icon : String
  accent : String
  sort_order : Int
  pinned : Int
deriving Repr, DecidableEq

/-- A row of the `category_items` table (`DBCategoryItem` in `db.ts`).  The
schema declares `FOREIGN KEY (category_id) REFERENCES categories(id) ON DELETE
CASCADE`. -/
structure DBCategoryItem where
  id : String
  category_id : String
  title : String
  description : Option String
  emphasis : Int
  updated_at : Option String
  sort_order : Int
deriving Repr, DecidableEq

/-- The whole SQLite database `data/grokchat.db` as one value. -/
structure Store where
  sessions : List Session
  messages : List DBMessage
  categories : List DBCategory
  categoryItems : List DBCategoryItem
deriving Repr, DecidableEq

/-- Model of `touchSession` in `db.ts`: bump the session row's `updated_at`. -/
def touchSession (st : Store) (sessionId : String) (now : Int) : Store :=
  { st with sessions := st.sessions.map fun s =>
      if s.id = sessionId then { s with updated_at := now } else s }

/-- Model of `insertMessage` in `db.ts`: append the row and touch its session.  The
generated id (`msg-` + clock + randomness) is environmental, so the caller of
the model supplies it in `msg.id`. -/
def insertMessage (st : Store) (msg : DBMessage) (now : Int) : Store :=
  touchSession { st with messages := st.messages ++ [msg] } msg.session_id now

/-- Model of `deleteMessages` in `db.ts`: `DELETE FROM messages WHERE id IN (…)`. -/
def deleteMessages (st : Store) (messageIds : List String) : Store :=
  { st with messages := st.messages.filter fun m => !(messageIds.contains m.id) }

/-- Model of `updateMessageTags` in `db.ts`: `UPDATE messages SET tags = ? WHERE id = ?`
(a full replacement of the column for the matching row). -/
def updateMessageTags (st : Store) (messageId : String) (tags : Option (List String)) : Store :=
  { st with messages := st.messages.map fun m =>
      if m.id = messageId then { m with tags := tags } else m }

/-- Model of `deleteCategory` in `db.ts`: `DELETE FROM categories WHERE id = ?`.  The
`category_items` schema declares `ON DELETE CASCADE` on `category_id` (and
better-sqlite3 enforces foreign keys), so the owned item rows are removed with
the category.  No other table references categories at the SQL level — message
`tags` are an opaque TEXT column — so messages and sessions are untouched. -/
def deleteCategory (st : Store) (categoryId : String) : Store :=
  { st with
    categories := st.categories.filter fun c => !(c.id == categoryId)
    categoryItems := st.categoryItems.filter fun i => !(i.category_id == categoryId) }

/-- Model of `upsertCategory` in `db.ts`: `INSERT … ON CONFLICT(id) DO UPDATE` replacing
every non-key field. -/
def upsertCategory (st : Store) (cat : DBCategory) : Store :=
  if st.categories.any fun c => c.id == cat.id then
    { st with categories := st.categories.map fun c => if c.id == cat.id then cat else c }
  else
    { st with categories := st.categories ++ [cat] }

/-- Comparison implementing SQLite `ORDER BY sort_order, id` over category
rows (ascending on both keys; `id` is the primary key, so the key is total). -/
def catLE (a b : DBCategory) : Bool :=
  a.sort_order < b.sort_order || (a.sort_order == b.sort_order && decide (a.id ≤ b.id))

/-- Insert into a list sorted by `le` (helper for the SQL ORDER BY model). -/
def insertSorted {α : Type} (le : α → α → Bool) (x : α) : List α → List α
  | [] => [x]
  | y :: ys => if le x y then x :: y :: ys else y :: insertSorted le x ys

/-- Sort a list by `le` (helper for the SQL ORDER BY model). -/
def sortBy {α : Type} (le : α → α → Bool) : List α → List α
  | [] => []
  | x :: xs => insertSorted le x (sortBy le xs)

/-- Model of `getAllCategories` in `db.ts`:
`SELECT * FROM categories ORDER BY sort_order, id`. -/
def getAllCategories (st : Store) : List DBCategory :=
  sortBy catLE st.categories

/-- Model of `getOrCreateSession` in `db.ts`: reuse the most recently updated session of
the user, else insert a fresh row (the generated id is supplied as `freshId`).
Returns the store and the session id. -/
def getOrCreateSession (st : Store) (userId freshId : String) (now : Int) : Store × String :=
  match (sortBy (fun a b => b.updated_at ≤ a.updated_at) (st.sessions.filter fun s => s.user_id == userId)).head? with
  | some s => (st, s.id)
  | none =>
      ({ st with sessions := st.sessions ++ [⟨freshId, userId, now, now⟩] }, freshId)

/-! ## Message-side REST endpoints (`server` app, the unnamed Express file) -/

/-- The `PATCH /api/messages/:messageId/tags` handler: a non-empty `tags` array
is JSON-encoded, an empty or missing one becomes SQL NULL, and the row's tag
set is replaced via `updateMessageTags`. -/
def apiPatchMessageTags (st : Store) (messageId : String) (tags : List String) : Store :=
  updateMessageTags st messageId (if tags.isEmpty then none else some tags)

/-- The `DELETE /api/messages` handler: rejects an empty `messageIds` array
with a 400 and otherwise deletes the listed rows, answering
`{ok, deleted: messageIds.length}`.  The reported count is the request-list
length, not the number of rows that existed. -/
def apiDeleteMessages (st : Store) (messageIds : List String) : Except String (Store × Nat) :=
  if messageIds.isEmpty then .error "messageIds array is required."
  else .ok (deleteMessages st messageIds, messageIds.length)

/-- The `DELETE /api/categories/:categoryId` handler: delegates to
`deleteCategory`. -/
def apiDeleteCategory (st : Store) (categoryId : String) : Store :=
  deleteCategory st categoryId

/-- The `POST /api/categories` handler: validates `id` and `title`, fills the
server-side defaults (`description || null`, `icon || 'Sparkles'`,
`accent || 'from-grokPurple to-grokBlue'`, `sort_order || 0`, `pinned || 0`)
and upserts the row. -/
def apiUpsertCategory (st : Store) (id title : String) (description icon accent : Option String)
    (sort_order pinned : Option Int) : Store :=
  if id = "" ∨ title = "" then st
  else
    upsertCategory st
      { id := id
        title := title
        description := jsOrNull description
        icon := jsOr icon "Sparkles"
        accent := jsOr accent "from-grokPurple to-grokBlue"
        sort_order := if sort_order.getD 0 = 0 then 0 else sort_order.getD 0
        pinned := if pinned.getD 0 = 0 then 0 else pinned.getD 0 }

/-- The `POST /api/chat/response` handler: validates the session id and
content, then inserts the assistant row (tags JSON-encoded when non-empty). -/
def apiChatResponse (st : Store) (sessionId content : String) (tags : List String)
    (freshMsgId ts : String) (now : Int) : Store × Option String :=
  if sessionId = "" ∨ content = "" then (st, none)
  else
    (insertMessage st
      { id := freshMsgId, session_id := sessionId, role := "assistant", content := content
        timestamp := ts, tags := if tags.isEmpty then none else some tags, attachments := none }
      now, some freshMsgId)

/-! ## Memory provider (`server/memoryProvider.ts`, current revision)

The file carries two revisions of `getRelevantMemories`; the operative one is
the later revision (the one using the Mem0 v2 search API), which maps each
search item to an atom and then keeps every atom with non-empty text — its
comment reads "Don't filter by tags for now - return all memories for the
user".  A collaborator failure is caught and yields the empty list, and an
unconfigured client short-circuits to the empty list. -/

/-- A memory atom (`MemoryAtom` in `memoryProvider.ts`).  The `type` field is
one of the string literals of `MemoryType = 'preference' | 'profile' | 'goal'
| 'history' | 'category_summary'`, modelled as a string. -/
structure MemoryAtom where
  text : String
  type : String
  tags : List String
deriving Repr, DecidableEq

/-- One item of a Mem0 search response (`Mem0SearchItem`): `memory` (v2 field)
or `text` (older API) carry the content, metadata may carry a type and tags,
and `categories` is the v2 fallback for tags. -/
structure Mem0SearchItem where
  memory : Option String
  text : Option String
  metadataType : Option String
  metadataTags : Option (List String)
  categories : Option (List String)
deriving Repr, DecidableEq

/-- The per-item mapping inside `getRelevantMemories`:
`text = item.memory ?? item.text ?? ''`, `type = metadata.type ?? 'history'`,
`tags = metadata.tags ?? item.categories ?? []`. -/
def mem0ItemToAtom (item : Mem0SearchItem) : MemoryAtom :=
  { text :=
      match item.memory with
      | some m => m
      | none => item.text.getD ""
    type := item.metadataType.getD "history"
    tags := item.metadataTags.getD (item.categories.getD []) }

/-- Model of `getRelevantMemories(userId, query, tags)` in `memoryProvider.ts` (current
revision).  The Mem0 search call is abstracted as an `Except` parameter:
`.error` models the `catch` branch.  Note the result filter keeps atoms with
non-empty text and does not consult `tags`. -/
def getRelevantMemories (configured : Bool) (memSearch : Except Unit (List Mem0SearchItem))
    (userId query : String) (tags : List String) : List MemoryAtom :=
  if !configured then []
  else
    match memSearch with
    | .error _ => []
    | .ok items => (items.map mem0ItemToAtom).filter fun m => 0 < m.text.length

/-! ## Memory-extraction heuristics (`/api/chat` handler, trigger-phrase
rules applied to the lowered latest user utterance) -/

/-- The preference trigger phrases, in source order. -/
def preferenceTriggers : List String :=
  ["i prefer", "i" ++ apos ++ "d like", "i like", "don" ++ apos ++ "t", "do not",
   "please always", "please never", "going forward"]

/-- The explicit-memory (note) trigger phrases, in source order. -/
def noteTriggers : List String :=
  ["remember that", "remember this", "note that", "keep in mind"]

/-- The `candidateMemories` accumulation in the `/api/chat` handler: four
independent trigger-phrase rules over the lowercased latest user message, each
pushing one atom that inherits the caller-supplied `tags` verbatim.  The
explicit-memory rule emits an atom of type `history` (there is no `note`
member in `MemoryType`). -/
def candidateMemories (content : String) (tags : List String) : List MemoryAtom :=
  let lowered := lowerStr content
  (if preferenceTriggers.any (fun p => strContains lowered p) then
      [⟨"User preference: " ++ content, "preference", tags⟩] else [])
  ++ (if strStarts lowered "i am " || strStarts lowered ("i" ++ apos ++ "m ") ||
        strContains lowered "my name is" || strContains lowered "call me " then
      [⟨"User profile note: " ++ content, "profile", tags⟩] else [])
  ++ (if strContains lowered "working on" || strContains lowered "our goal is" then
      [⟨"User goal: " ++ content, "goal", tags⟩] else [])
  ++ (if noteTriggers.any (fun p => strContains lowered p) then
      [⟨"User note: " ++ content, "history", tags⟩] else [])

/-! ## The `/api/chat` endpoint (current server revision) -/

/-- One message of the chat request body. -/
structure ReqMessage where
  role : String
  content : String
deriving Repr, DecidableEq

/-- The `/api/chat` request body (`ChatRequestBody`). -/
structure ChatRequest where
  userId : String
  messages : List ReqMessage
  tags : List String
  attachments : Option (List AttachmentMeta)
deriving Repr, DecidableEq

/-- A knowledge document (`RAGDocument` in `ragStore.ts`). -/
structure RAGDocument where
  id : Option String
  text : String
deriving Repr, DecidableEq

/-- The externally observable actions of the `/api/chat` handler, in the
order the handler performs them. -/
inductive ChatEvent where
  | insertUserMessage (id : String)
  | memoryPersist (atoms : List MemoryAtom)
  | memorySearch (query : String)
  | knowledgeSearch (ns : String) (query : String)
deriving Repr, DecidableEq

/-- The `/api/chat` response. -/
inductive ChatResponse where
  | badRequest (msg : String)
  | serverError
  | ok (usedMemories : List MemoryAtom) (ragDocs : List RAGDocument) (sessionId userMsgId : String)
deriving Repr, DecidableEq

/-- The `POST /api/chat` handler: validate, get-or-create the session, run the
trigger-phrase heuristics, durably insert the user message, then call the
memory collaborator (persist + search; both failures are swallowed locally,
the search degrading to `[]`) and the knowledge collaborator (whose thrown
failure is caught by the handler's `catch`, answering 500).  The generated
session/message ids and timestamps are environmental parameters.  Collaborator
outcomes are `Except` parameters; the returned event list records the actions
in program order. -/
def apiChatHandler (st : Store) (req : ChatRequest) (memConfigured : Bool)
    (memSearch : Except Unit (List Mem0SearchItem)) (ragSearch : Except Unit (List RAGDocument))
    (freshSessionId freshMsgId ts : String) (now : Int) :
    Store × ChatResponse × List ChatEvent :=
  if req.userId = "" ∨ req.messages.isEmpty then
    (st, .badRequest "userId and messages are required.", [])
  else
    match req.messages.reverse.find? (fun m => m.role == "user") with
    | none => (st, .badRequest "At least one user message is required.", [])
    | some latestUser =>
      let sc := getOrCreateSession st req.userId freshSessionId now
      let atoms := candidateMemories latestUser.content req.tags
      let row : DBMessage :=
        { id := freshMsgId, session_id := sc.2, role := "user", content := latestUser.content
          timestamp := ts, tags := if req.tags.isEmpty then none else some req.tags
          attachments := req.attachments }
      let st2 := insertMessage sc.1 row now
      let relevant := getRelevantMemories memConfigured memSearch req.userId latestUser.content req.tags
      let ns := req.tags.head?.getD "default"
      let events := [ChatEvent.insertUserMessage freshMsgId, ChatEvent.memoryPersist atoms,
                     ChatEvent.memorySearch latestUser.content,
                     ChatEvent.knowledgeSearch ns latestUser.content]
      match ragSearch with
      | .ok docs => (st2, .ok relevant docs sc.2 freshMsgId, events)
      | .error _ => (st2, .serverError, events)

/-! ## Client-side category resolution (`src/App.tsx`)

The React component state relevant to the suspend/resume machine is collected
in `ClientState`; the browser-side message list mirrors the store, and the
five pending fields (`pendingSuggestion`, `pendingMessageContent`,
`pendingUserMessageId` and the two refs holding the prompt transcript and the
tool-call id) form the `PendingSuggestion` record of the spec.  `World` pairs
the client with the server store, and the fire-and-forget `fetch` calls of the
handlers are modelled as the corresponding endpoint applications. -/

/-- A chat message in client state (`ChatMessage` in `types/chat.ts`; the
attachment list is display metadata and not inspected here). -/
structure ClientMessage where
  id : String
  role : String
  content : String
  timestamp : String
  tags : Option (List String)
deriving Repr, DecidableEq

/-- A context category in client state (`ContextCategory`; icon/accent are
presentation-only components and omitted). -/
structure ClientCategory where
  id : String
  title : String
  description : Option String
deriving Repr, DecidableEq

/-- A message of the completion transcript (`GrokMessage` in
`lib/grokClient.ts`). -/
structure GrokMessage where
  role : String
  content : String
  tool_call_id : Option String
deriving Repr, DecidableEq

/-- A completion result (`GrokCompletionResult`); only `content` is consumed
by the resume path. -/
structure GrokResult where
  content : Option String
deriving Repr, DecidableEq

/-- One call made to `createChatCompletionWithTools`: the transcript sent and
the names of the tools offered (the request omits the `tools` field whenever
the caller passes none, so an empty list is "no tools offered"). -/
structure CompletionCall where
  messages : List GrokMessage
  tools : List String
deriving Repr, DecidableEq

/-- The category suggestion payload (`CategorySuggestion` in
`CategorySuggestionPopup.tsx`). -/
structure NewCategoryProposal where
  title : String
  description : Option String
  icon : Option String
  accent : Option String
deriving Repr, DecidableEq

structure CategorySuggestion where
  type : String
  existingCategoryId : Option String
  newCategory : Option NewCategoryProposal
  reasoning : String
deriving Repr, DecidableEq

/-- The `App` component state driving the resolver. -/
structure ClientState where
  messages : List ClientMessage
  categories : List ClientCategory
  isAssistantTyping : Bool
  sessionId : Option String
  pendingSuggestion : Option CategorySuggestion
  pendingMessageContent : Option String
  pendingUserMessageId : Option String
  pendingGrokMessages : Option (List GrokMessage)
  pendingToolCallId : Option String
  suggestionLoading : Bool
deriving Repr, DecidableEq

/-- Client plus server store. -/
structure World where
  client : ClientState
  store : Store
deriving Repr, DecidableEq

/-- Environment-supplied identifiers and clocks consumed during one
resolution: the id of a category created by Accept, the client-side assistant
message id and timestamp, and the server-side assistant row id, timestamp and
clock used by the `/api/chat/response` insert. -/
structure FreshIds where
  newCategoryId : String
  assistantMsgId : String
  assistantTs : String
  dbAssistantMsgId : String
  serverTs : String
  now : Int
deriving Repr, DecidableEq

/-- The `finally` block of `continueAfterCategorySuggestion`: every pending
field is cleared, the loading flag and the typing indicator are reset. -/
def clearPendingState (c : ClientState) : ClientState :=
  { c with
    pendingSuggestion := none
    suggestionLoading := false
    pendingMessageContent := none
    pendingUserMessageId := none
    pendingGrokMessages := none
    pendingToolCallId := none
    isAssistantTyping := false }

/-- The tool-result payload
`{user_selected_category_id, category_title}` (the JSON encoding is
abstracted to an injective textual pairing). -/
def toolResultContent (categoryId title : String) : String :=
  "user_selected_category_id: " ++ categoryId ++ "; category_title: " ++ title

/-- Model of `continueAfterCategorySuggestion(categoryId)` in `App.tsx`.  The guard
mirrors the JavaScript falsiness test on the pending id, the transcript ref
and the tool-call id (an empty string is falsy).  On the main path the client
marks the assistant as typing, rewrites the pending user message's tags to
`[categoryId]` in client state, issues the tags PATCH against the *pending
user message id* (the client-side id), builds the tool-result entry bound to
the stored tool-call id, appends the assistant stub plus the tool result to
the stored transcript and performs exactly one completion call with no tools.
On success the reply is appended to client state and persisted via
`/api/chat/response` when a session id is present; on a thrown completion the
catch only logs.  Either way the `finally` block clears the pending state. -/
def continueAfterCategorySuggestion (w : World) (categoryId : String)
    (completion : Except Unit GrokResult) (fr : FreshIds) : World × List CompletionCall :=
  match w.client.pendingUserMessageId, w.client.pendingGrokMessages, w.client.pendingToolCallId with
  | some pmid, some transcript, some toolCallId =>
    if pmid = "" ∨ toolCallId = "" then
      ({ w with client :=
          { w.client with pendingSuggestion := none, suggestionLoading := false } }, [])
    else
      let c1 := { w.client with isAssistantTyping := true }
      let c2 := { c1 with messages := c1.messages.map fun m =>
          if m.id = pmid then { m with tags := some [categoryId] } else m }
      let st1 := apiPatchMessageTags w.store pmid [categoryId]
      let toolResultMessage : GrokMessage :=
        { role := "tool"
          content := toolResultContent categoryId
            (jsOr ((c2.categories.find? fun c => c.id == categoryId).map ClientCategory.title)
              "Unknown")
          tool_call_id := some toolCallId }
      let followUpMessages :=
        transcript ++ [⟨"assistant", "", none⟩, toolResultMessage]
      let call : CompletionCall := { messages := followUpMessages, tools := [] }
      match completion with
      | .ok result =>
        let assistantText := jsOr result.content "I understand. Let me help you with that."
        let assistantMessage : ClientMessage :=
          { id := fr.assistantMsgId, role := "assistant", content := assistantText
            timestamp := fr.assistantTs, tags := some [categoryId] }
        let c3 := { c2 with messages := c2.messages ++ [assistantMessage] }
        let st2 :=
          match w.client.sessionId with
          | some sid =>
              (apiChatResponse st1 sid assistantText [categoryId] fr.dbAssistantMsgId
                fr.serverTs fr.now).1
          | none => st1
        ({ client := clearPendingState c3, store := st2 }, [call])
      | .error _ =>
        ({ client := clearPendingState c2, store := st1 }, [call])
  | _, _, _ =>
    ({ w with client :=
        { w.client with pendingSuggestion := none, suggestionLoading := false } }, [])

/-- The fallback choice of `handleForceClosestCategory`:
`categories[0]?.id || ''`. -/
def closestCategoryId (c : ClientState) : String :=
  ((c.categories.head?).map ClientCategory.id).getD ""

/-- The fallback choice of `handleDismissSuggestion`:
`categories[0]?.id || ''`. -/
def dismissFallbackCategoryId (c : ClientState) : String :=
  ((c.categories.head?).map ClientCategory.id).getD ""

/-- Model of `handleSelectExistingCategory(categoryId)`: mark the popup as loading and
resume with the explicitly chosen id. -/
def handleSelectExistingCategory (w : World) (categoryId : String)
    (completion : Except Unit GrokResult) (fr : FreshIds) : World × List CompletionCall :=
  continueAfterCategorySuggestion
    { w with client := { w.client with suggestionLoading := true } } categoryId completion fr

/-- Model of `handleForceClosestCategory`: mark the popup as loading and resume with
the first client-listed category. -/
def handleForceClosestCategory (w : World) (completion : Except Unit GrokResult)
    (fr : FreshIds) : World × List CompletionCall :=
  continueAfterCategorySuggestion
    { w with client := { w.client with suggestionLoading := true } }
    (closestCategoryId w.client) completion fr

/-- Model of `handleDismissSuggestion`: resume with the first client-listed category
(no loading flag is set on this path). -/
def handleDismissSuggestion (w : World) (completion : Except Unit GrokResult)
    (fr : FreshIds) : World × List CompletionCall :=
  continueAfterCategorySuggestion w (dismissFallbackCategoryId w.client) completion fr

/-- Model of `handleAcceptSuggestion`: guarded on a present suggestion and a truthy
pending user message id; for a `new`-typed suggestion with a payload the
category is first created client-side and upserted through
`POST /api/categories`, then resolution continues with its id; otherwise the
suggested existing id (or the first category as fallback) is used. -/
def handleAcceptSuggestion (w : World) (completion : Except Unit GrokResult)
    (fr : FreshIds) : World × List CompletionCall :=
  match w.client.pendingSuggestion, w.client.pendingUserMessageId with
  | some sug, some pmid =>
    if pmid = "" then (w, [])
    else
      let w1 := { w with client := { w.client with suggestionLoading := true } }
      match sug.newCategory with
      | some nc =>
        if sug.type = "new" then
          let newCat : ClientCategory :=
            { id := fr.newCategoryId, title := nc.title, description := nc.description }
          let w2 := { w1 with client :=
              { w1.client with categories := w1.client.categories ++ [newCat] } }
          let st2 := apiUpsertCategory w2.store fr.newCategoryId nc.title
            (jsOrNull nc.description) (some (jsOr nc.icon "Sparkles"))
            (some (jsOr nc.accent "from-grokPurple to-grokBlue")) none none
          continueAfterCategorySuggestion { w2 with store := st2 } fr.newCategoryId completion fr
        else
          continueAfterCategorySuggestion w1
            (jsOr sug.existingCategoryId (closestCategoryId w1.client)) completion fr
      | none =>
        continueAfterCategorySuggestion w1
          (jsOr sug.existingCategoryId (closestCategoryId w1.client)) completion fr
  | _, _ => (w, [])

/-- The four decision actions offered by the suggestion popup. -/
inductive Decision where
  | accept
  | selectExisting (categoryId : String)
  | forceClosest
  | dismiss
deriving Repr, DecidableEq

/-- Dispatch of a popup decision to its `App.tsx` handler. -/
def resolveDecision (w : World) (d : Decision) (completion : Except Unit GrokResult)
    (fr : FreshIds) : World × List CompletionCall :=
  match d with
  | .accept => handleAcceptSuggestion w completion fr
  | .selectExisting categoryId => handleSelectExistingCategory w categoryId completion fr
  | .forceClosest => handleForceClosestCategory w completion fr
  | .dismiss => handleDismissSuggestion w completion fr

/-- The number of pending suggestions held by the client: the state machine
keeps the suggestion in a single `useState` slot. -/
def pendingCount (c : ClientState) : Nat :=
  match c.pendingSuggestion with
  | some _ => 1
  | none => 0

/-- The client category list as loaded from `GET /api/categories` on mount:
the store's rows in `getAllCategories` order, mapped field-for-field (order
preserving). -/
def loadedClientCategories (st : Store) : List ClientCategory :=
  (getAllCategories st).map fun c => ⟨c.id, c.title, c.description⟩

/-! ## The send path (`ChatInput.sendCurrentMessage` → `handleSendMessage`)

The composer's only guard against a send is `if (disabled) return` in
`ChatInput`, and `ChatPanel` wires `disabled={isAssistantTyping}`; nothing on
the send path consults `pendingSuggestion`, and the flag is set to false the
moment the machine suspends.  `handleSendMessage` (App.tsx 238-580) is
modelled below for a send without attachments and with no category view
selected (`activeCategoryId` null) — the configuration in which untagged
sends, and hence suspension, occur.  Generated ids and timestamps and the
collaborator outcomes arrive through `SendEnv`; outbound fire-and-forget
requests are recorded as `ClientEffect`s in program order. -/

/-- Decoded arguments of the `suggest_category` tool call
(`SuggestCategoryArgs` in `lib/grokClient.ts`). -/
structure SuggestCategoryArgs where
  suggestion_type : String
  existing_category_id : Option String
  new_category : Option NewCategoryProposal
  reasoning : String
deriving Repr, DecidableEq

/-- One proposed signal of a `create_context_category` call. -/
structure SignalProposal where
  title : String
  description : Option String
deriving Repr, DecidableEq

/-- Decoded arguments of the `create_context_category` tool call
(`CreateContextCategoryArgs` in `lib/grokClient.ts`). -/
structure CreateContextCategoryArgs where
  title : String
  description : Option String
  icon : Option String
  accent : Option String
  signals : List SignalProposal
deriving Repr, DecidableEq

/-- A tool call returned by the first completion round.  The source
dispatches on `toolCall.function.name` and `JSON.parse`s the argument
string; the decoded outcome is a closed variant, with `other` covering any
unrecognised name (which matches neither branch of the dispatch loop). -/
inductive ToolCallPayload where
  | suggestCategory (args : SuggestCategoryArgs)
  | createContextCategory (args : CreateContextCategoryArgs)
  | other (name : String)
deriving Repr, DecidableEq

structure ToolCall where
  id : String
  payload : ToolCallPayload
deriving Repr, DecidableEq

/-- The first-round completion result (`GrokCompletionResult` with its
decoded tool calls).  The follow-up rounds offer no tools and only their
`content` is read, which `GrokResult` models. -/
structure GrokToolResult where
  content : Option String
  tool_calls : List ToolCall
deriving Repr, DecidableEq

/-- The decoded payload of a successful `/api/chat` fetch. -/
structure ChatApiData where
  usedMemories : List MemoryAtom
  ragDocs : List RAGDocument
  sessionId : Option String
  userMsgId : Option String
deriving Repr, DecidableEq

/-- Outbound requests issued by the send path, in program order. -/
inductive ClientEffect where
  | chatApiRequest (userId : String) (tags : List String)
  | completionRequest (messages : List GrokMessage) (tools : List String)
      (toolChoice : Option String)
  | upsertCategoryRequest (id title : String) (description : Option String)
      (icon accent : String)
  | upsertItemRequest (categoryId itemId title : String) (description : Option String)
  | patchTagsRequest (messageId : String) (tags : List String)
  | persistResponseRequest (sessionId content : String) (tags : List String)
deriving Repr, DecidableEq

/-- Environment of one send: the generated client ids and timestamps, the
`/api/chat` outcome (`none` models a thrown fetch or a non-ok response, both
swallowed), the first completion outcome, and — for each
`create_context_category` call, indexed in order — the generated category id,
the generated signal-id base and the follow-up completion outcome. -/
structure SendEnv where
  userMessageId : String
  userTs : String
  chatApi : Option ChatApiData
  completion : Except Unit GrokToolResult
  creations : Nat → String × String × Except Unit GrokResult
  assistantMsgId : String
  assistantTs : String

/-- ASCII whitespace for the JavaScript `trim` model. -/
def isSpaceChar (ch : Char) : Bool :=
  ch == ' ' || ch == '\t' || ch == '\n' || ch == '\r'

/-- Model of `message.trim()` on the composer draft. -/
def strTrim (s : String) : String :=
  ⟨((s.data.dropWhile isSpaceChar).reverse.dropWhile isSpaceChar).reverse⟩

/-- The composer send gate: `ChatInput.sendCurrentMessage` begins with
`if (disabled) return`, and `ChatPanel` passes `disabled={isAssistantTyping}`
(ChatPanel.tsx 973).  This is the only gate on the send path — it does not
consult `pendingSuggestion`. -/
def composerDisabled (c : ClientState) : Bool :=
  c.isAssistantTyping

/-- Model of `slice(-n)`: the last `n` elements. -/
def takeLast {α : Type} (n : Nat) (l : List α) : List α :=
  l.drop (l.length - n)

/-- The default system prompt used when the history holds no system message. -/
def defaultSystemText : String :=
  "You are Grok, an adaptive operations co-pilot. Maintain a resilient tone and weave in relevant context signals when responding."

/-- The memory section injected into the system prompt. -/
def memorySectionText (usedMemories : List MemoryAtom) : String :=
  if usedMemories.isEmpty then "None yet."
  else String.intercalate "\n" (usedMemories.map fun m => "- (" ++ m.type ++ ") " ++ m.text)

/-- The knowledge section injected into the system prompt. -/
def knowledgeSectionText (ragDocs : List RAGDocument) : String :=
  if ragDocs.isEmpty then "None available."
  else String.intercalate "\n" (ragDocs.map fun d => "- " ++ d.text)

/-- The category list rendered into the auto-tag tool instruction. -/
def categoryListText (cats : List ClientCategory) : String :=
  String.intercalate "\n" (cats.map fun cat => "- " ++ cat.id ++ ": " ++ cat.title)

/-- The tool instruction appended to the system prompt: the forced
`suggest_category` variant when auto-tagging, the optional
`create_context_category` variant otherwise. -/
def toolInstructionText (shouldAutoTag : Bool) (categoryList : String) : String :=
  if shouldAutoTag then
    "\n\nYou have tools available:\n1. suggest_category: The user did NOT select a context category. You MUST use this tool to suggest either an existing category or creating a new one. Available existing categories:\n"
      ++ categoryList
      ++ "\n2. create_context_category: If user explicitly asks to create a new category."
  else
    "\n\nYou have the ability to create new context categories using the create_context_category tool. Use this when the user is discussing a new topic that would benefit from its own dedicated space, or when they explicitly ask to create a new category/focus area. Choose appropriate icons and colors that match the topic."

/-- The transcript sent to the first completion round (App.tsx 359-371): the
system prompt with the memory/knowledge sections and the tool instruction,
the last 12 non-system messages, and the new user message. -/
def buildGrokMessages (nextHistory : List ClientMessage) (content : String)
    (usedMemories : List MemoryAtom) (ragDocs : List RAGDocument)
    (shouldAutoTag : Bool) (categoryList : String) : List GrokMessage :=
  let systemPrompt := nextHistory.find? fun m => m.role == "system"
  let trimmedConversation := takeLast 12 (nextHistory.filter fun m => !(m.role == "system"))
  let sections :=
    "\n\nKnown about this user and context (from memory):\n" ++ memorySectionText usedMemories
      ++ "\n\nRelevant knowledge base:\n" ++ knowledgeSectionText ragDocs
      ++ toolInstructionText shouldAutoTag categoryList
  let sysMsg : GrokMessage :=
    match systemPrompt with
    | some sp => ⟨sp.role, sp.content ++ sections, none⟩
    | none => ⟨"system", defaultSystemText ++ sections, none⟩
  sysMsg :: ((trimmedConversation.map fun m => (⟨m.role, m.content, none⟩ : GrokMessage))
    ++ [⟨"user", content, none⟩])

/-- Model of `synthesizeAssistantReply(prompt, category)` (App.tsx 87-98).
The anchor the source reads from the category's first signal item is
modelled by its no-items fallback "selected context": signal item lists are
display data omitted from `ClientCategory` throughout this client model. -/
def synthesizeAssistantReply (prompt : String) : String :=
  let anchor := "selected context"
  let trimmedPrompt := if 140 < prompt.length then (⟨prompt.data.take 140⟩ : String) ++ "…" else prompt
  String.intercalate "\n"
    ["Pulling from **" ++ anchor ++ "** and adjacent signals.",
     "Here is the high-signal summary for: \"" ++ trimmedPrompt ++ "\"",
     "",
     "• Key risk: latency windows widen during the Sydney relay — reroute through west coast edge for the next six hours.",
     "• Sentiment: onboarding confusion shows up in 14% of Oceania threads, mostly in healthcare pilots; drafting a fixes digest now.",
     "• Next move: spin a sub-thread titled \"Oceania preempt\" so we can track mitigations and auto-tag any fresh incidents."]

/-- The tool-result payload of a `create_context_category` call
(`{success, category_id, title, description, signals_count}`; the JSON
encoding is abstracted to an injective textual pairing). -/
def createToolResultContent (categoryId title : String) (description : Option String)
    (signalsCount : Nat) : String :=
  "success: true; category_id: " ++ categoryId ++ "; title: " ++ title
    ++ "; description: " ++ description.getD "" ++ "; signals_count: " ++ toString signalsCount

/-- The canned reply used when the follow-up completion of a
`create_context_category` call returns no content. -/
def createdCategoryFallbackText (args : CreateContextCategoryArgs) : String :=
  "I" ++ apos ++ "ve created a new context category called \"" ++ args.title ++ "\""
    ++ (match args.description with
        | some d => if d = "" then "" else " - " ++ d
        | none => "")
    ++ "."
    ++ (if 0 < args.signals.length then
          " I" ++ apos ++ "ve also added " ++ toString args.signals.length
            ++ " initial signal" ++ (if 1 < args.signals.length then "s" else "")
            ++ " to help organize your thoughts."
        else "")

/-- Result of the tool-call dispatch loop: suspension (a `suggest_category`
call stored the pending state and short-circuited), normal completion with
the accumulated reply text, or a thrown follow-up completion propagating to
the outer catch. -/
inductive LoopOutcome where
  | suspended (c : ClientState) (effects : List ClientEffect)
  | finished (c : ClientState) (effects : List ClientEffect) (assistantText : String)
  | threw (c : ClientState) (effects : List ClientEffect)

/-- The `for (const toolCall of result.tool_calls)` loop (App.tsx 396-503):
calls are processed in order; a `suggest_category` call stores the five
pending fields, turns the typing flag off and returns (suspension,
short-circuiting any later calls); a `create_context_category` call appends
the category client-side, issues the category and signal upserts, performs
one follow-up completion with no tools and keeps its reply text (or throws);
an unrecognised name matches neither branch. -/
def processToolCalls (content userMessageId : String) (grokMessages : List GrokMessage)
    (firstContent : Option String) (creations : Nat → String × String × Except Unit GrokResult) :
    ClientState → List ToolCall → Nat → String → List ClientEffect → LoopOutcome
  | cur, [], _, text, effs => .finished cur effs text
  | cur, tc :: rest, k, text, effs =>
    match tc.payload with
    | .suggestCategory args =>
        .suspended
          { cur with
            pendingSuggestion := some ⟨args.suggestion_type, args.existing_category_id,
              args.new_category, args.reasoning⟩
            pendingMessageContent := some content
            pendingUserMessageId := some userMessageId
            pendingGrokMessages := some grokMessages
            pendingToolCallId := some tc.id
            isAssistantTyping := false } effs
    | .createContextCategory args =>
        let cr := creations k
        let catId := cr.1
        let sigBase := cr.2.1
        let followUp := cr.2.2
        let cur2 : ClientState := { cur with categories := cur.categories ++ [⟨catId, args.title, args.description⟩] }
        let effs2 : List ClientEffect := effs ++
          [ClientEffect.upsertCategoryRequest catId args.title (jsOrNull args.description)
            (jsOr args.icon "Sparkles") (jsOr args.accent "from-grokPurple to-grokBlue")] ++
          args.signals.enum.map (fun p =>
            ClientEffect.upsertItemRequest catId (sigBase ++ "-" ++ toString p.1) p.2.title
              (jsOrNull p.2.description))
        let followUpMsgs : List GrokMessage := grokMessages ++
          [⟨"assistant", jsOr firstContent "", none⟩,
           ⟨"tool", createToolResultContent catId args.title args.description args.signals.length,
            some tc.id⟩]
        let effs3 : List ClientEffect := effs2 ++ [ClientEffect.completionRequest followUpMsgs [] none]
        match followUp with
        | .error _ => .threw cur2 effs3
        | .ok r =>
            processToolCalls content userMessageId grokMessages firstContent creations cur2 rest
              (k + 1) (jsOr r.content (createdCategoryFallbackText args)) effs3
    | .other _ =>
        processToolCalls content userMessageId grokMessages firstContent creations cur rest
          k text effs

/-- The tail of a non-suspending send (App.tsx 512-555): resolve the tags
(falling back to the first category of the render-time list), rewrite the
user message's tags in state, PATCH the durable tags when a db id is known,
append the assistant reply, persist it when a session exists, and clear the
typing flag. -/
def sendTail (origCats : List ClientCategory) (tags : List String) (userMessageId : String)
    (dbUserMsgId currentSessionId : Option String) (assistantText : String) (env : SendEnv)
    (cur : ClientState) (effs : List ClientEffect) : ClientState × List ClientEffect :=
  let resolvedTags :=
    if tags.isEmpty then
      match origCats.head? with
      | some cat0 => [cat0.id]
      | none => tags
    else tags
  let cur2 : ClientState := { cur with messages := cur.messages.map fun m =>
      if m.id = userMessageId then { m with tags := some resolvedTags } else m }
  let effs2 : List ClientEffect := effs ++
    (match dbUserMsgId with
     | some dbid => if dbid ≠ "" ∧ ¬ resolvedTags.isEmpty
          then [ClientEffect.patchTagsRequest dbid resolvedTags] else []
     | none => [])
  let assistantMessage : ClientMessage :=
    ⟨env.assistantMsgId, "assistant", assistantText, env.assistantTs, some resolvedTags⟩
  let cur3 : ClientState := { cur2 with messages := cur2.messages ++ [assistantMessage] }
  let effs3 : List ClientEffect := effs2 ++
    (match currentSessionId with
     | some sid => if sid ≠ ""
          then [ClientEffect.persistResponseRequest sid assistantText resolvedTags] else []
     | none => [])
  ({ cur3 with isAssistantTyping := false }, effs3)

/-- The outer catch of `handleSendMessage` (App.tsx 556-577): a locally
synthesized fallback reply is appended, the user message gets the fallback
tags, and the typing flag clears (the status banner is display-only and
outside the model). -/
def sendCatch (origCats : List ClientCategory) (content : String) (tags : List String)
    (userMessageId : String) (env : SendEnv) (cur : ClientState)
    (effs : List ClientEffect) : ClientState × List ClientEffect :=
  let fallbackTags :=
    if ¬ tags.isEmpty then tags
    else
      match origCats.head? with
      | some cat0 => [cat0.id]
      | none => []
  let fallback := synthesizeAssistantReply content
  let cur2 : ClientState := { cur with messages := cur.messages.map fun m =>
      if m.id = userMessageId then { m with tags := some fallbackTags } else m }
  let cur3 : ClientState := { cur2 with messages := cur2.messages ++
      [(⟨env.assistantMsgId, "assistant", fallback, env.assistantTs, some fallbackTags⟩ : ClientMessage)] }
  ({ cur3 with isAssistantTyping := false }, effs)

/-- Model of `handleSendMessage(content, tags)` (App.tsx 238-580) for a send
without attachments and with no category view selected.  The user message is
appended and the typing flag set, the `/api/chat` fetch runs (failures
swallowed), the completion transcript is assembled, and — when Grok is
configured — one completion call is made with the auto-tag tools when no tags
were supplied; its tool calls are dispatched by `processToolCalls`.  Nothing
on this path consults `pendingSuggestion`: the function proceeds identically
whether or not a suggestion is pending, and a new `suggest_category` call
overwrites the slot. -/
def handleSendMessage (c : ClientState) (content : String) (tags : List String)
    (grokConfigured : Bool) (env : SendEnv) : ClientState × List ClientEffect :=
  let shouldAutoTag := tags.isEmpty && !c.categories.isEmpty
  let userMessage : ClientMessage := ⟨env.userMessageId, "user", content, env.userTs, some []⟩
  let nextHistory := c.messages ++ [userMessage]
  let c1 : ClientState := { c with messages := nextHistory, isAssistantTyping := true }
  let effs0 : List ClientEffect := [ClientEffect.chatApiRequest "demo-user" tags]
  let usedMemories := match env.chatApi with
    | some dat => dat.usedMemories
    | none => []
  let ragDocs := match env.chatApi with
    | some dat => dat.ragDocs
    | none => []
  let dbUserMsgId := match env.chatApi with
    | some dat => dat.userMsgId
    | none => none
  let currentSessionId := match env.chatApi with
    | some dat =>
        match dat.sessionId with
        | some sid => some sid
        | none => c.sessionId
    | none => c.sessionId
  let c2 : ClientState := match env.chatApi with
    | some dat =>
        match dat.sessionId with
        | some sid => { c1 with sessionId := some sid }
        | none => c1
    | none => c1
  let grokMessages := buildGrokMessages nextHistory content usedMemories ragDocs
    shouldAutoTag (categoryListText c.categories)
  if grokConfigured then
    let tools := if shouldAutoTag then ["suggest_category", "create_context_category"]
                 else ["create_context_category"]
    let toolChoice := if shouldAutoTag then "required" else "auto"
    let effs1 : List ClientEffect := effs0 ++ [ClientEffect.completionRequest grokMessages tools (some toolChoice)]
    match env.completion with
    | .error _ => sendCatch c.categories content tags env.userMessageId env c2 effs1
    | .ok result =>
        if result.tool_calls.isEmpty then
          sendTail c.categories tags env.userMessageId dbUserMsgId currentSessionId
            (jsOr result.content "") env c2 effs1
        else
          match processToolCalls content env.userMessageId grokMessages result.content
              env.creations c2 result.tool_calls 0 "" effs1 with
          | .suspended c3 effs => (c3, effs)
          | .finished c3 effs text =>
              sendTail c.categories tags env.userMessageId dbUserMsgId currentSessionId
                text env c3 effs
          | .threw c3 effs => sendCatch c.categories content tags env.userMessageId env c3 effs
  else
    sendTail c.categories tags env.userMessageId dbUserMsgId currentSessionId
      (synthesizeAssistantReply content) env c2 effs0

/-- Model of `sendCurrentMessage` in the operative `ChatInput` revision
(without attachments): `if (disabled) return` — the flag wired to
`isAssistantTyping`, the only guard on the path — then the emptiness check on
the trimmed draft, then `onSend(trimmed, selectedTags)` which is
`handleSendMessage`.  `none` models the early returns (the send is dropped).
The Enter key handler calls this directly, and the suggestion popup overlay
traps no keyboard focus. -/
def sendCurrentMessage (c : ClientState) (message : String) (tags : List String)
    (grokConfigured : Bool) (env : SendEnv) : Option (ClientState × List ClientEffect) :=
  if composerDisabled c then none
  else
    let trimmed := strTrim message
    if trimmed = "" then none
    else some (handleSendMessage c trimmed tags grokConfigured env)

/-! ## Shared concrete fixtures for witnesses and evaluations -/

/-- A client suspended in `AWAITING_TAG_DECISION` on message `user-1`. -/
def sampleClient : ClientState :=
  { messages := [⟨"user-1", "user", "plan the sprint", "t1", none⟩]
    categories := [⟨"ops", "Operations", none⟩]
    isAssistantTyping := false
    sessionId := some "session-1"
    pendingSuggestion := some ⟨"existing", some "ops", none, "fits ops"⟩
    pendingMessageContent := some "plan the sprint"
    pendingUserMessageId := some "user-1"
    pendingGrokMessages := some [⟨"system", "sys", none⟩, ⟨"user", "plan the sprint", none⟩]
    pendingToolCallId := some "call-1"
    suggestionLoading := false }

/-- The matching server store: the durable copy of `user-1` carries the
server-generated id `msg-1`. -/
def sampleStore : Store :=
  { sessions := [⟨"session-1", "demo-user", 0, 0⟩]
    messages := [⟨"msg-1", "session-1", "user", "plan the sprint", "t1", none, none⟩]
    categories := [⟨"ops", "Operations", none, "Sparkles", "from-grokPurple to-grokBlue", 0, 0⟩]
    categoryItems := [] }

def sampleWorld : World :=
  ⟨sampleClient, sampleStore⟩

def sampleFresh : FreshIds :=
  ⟨"focus-1", "assistant-9", "t2", "msg-2", "t3", 5⟩

/-- A store whose insertion order (`zeta`, then `ops`) differs from its
iteration order (`ops` has the smaller sort key). -/
def sampleStoreTwoCats : Store :=
  ⟨[], [], [⟨"zeta", "Zeta", none, "Sparkles", "x", 1, 0⟩,
            ⟨"ops", "Operations", none, "Sparkles", "x", 0, 0⟩], []⟩

/-- A client whose category list was loaded from `sampleStoreTwoCats`. -/
def sampleClientTwoCats : ClientState :=
  { sampleClient with categories := loadedClientCategories sampleStoreTwoCats }

/-- Environment of a second send issued while `sampleClient` is suspended:
the completion again answers with a single `suggest_category` call. -/
def sampleSecondSendEnv : SendEnv :=
  { userMessageId := "user-2"
    userTs := "t4"
    chatApi := some ⟨[], [], some "session-1", some "msg-3"⟩
    completion := .ok ⟨none,
      [⟨"call-2", .suggestCategory ⟨"new", none, some ⟨"Travel", none, none, none⟩, "new topic"⟩⟩]⟩
    creations := fun _ => ("", "", .error ())
    assistantMsgId := "assistant-10"
    assistantTs := "t5" }

/-! ## Theorems -/

theorem string_pos_length_iff (s : String) : 0 < s.length ↔ s ≠ "" := by
  constructor
  · intro h he
    subst he
    simp at h
  · intro h
    rcases Nat.eq_zero_or_pos s.length with h0 | h0
    · exact absurd (by cases s with
        | mk data =>
          cases data with
          | nil => rfl
          | cons c cs => simp [String.length] at h0) h
    · exact h0

theorem mem_if_singleton {α : Type} {c : Prop} [Decidable c] {x a : α}
    (h : a ∈ (if c then [x] else [])) : a = x := by
  split at h
  · simpa using h
  · simp at h

theorem getOrCreateSession_messages (st : Store) (userId freshId : String) (now : Int) :
    (getOrCreateSession st userId freshId now).1.messages = st.messages := by
  unfold getOrCreateSession
  split <;> rfl

/-! ### C7: deleting a category cascades to its items and spares messages -/

/-- C7 — For every category id, `deleteCategory id` removes the category row
and all `CategoryItem` rows owned by that category (the schema's ON DELETE
CASCADE), while every message — including any whose tag set references the
id — and every session row is left unchanged. -/
theorem deleteCategory_cascades_items_spares_messages (st : Store) (cid : String) :
    (∀ c : DBCategory, c ∈ (deleteCategory st cid).categories ↔ c ∈ st.categories ∧ c.id ≠ cid) ∧
    (∀ i : DBCategoryItem,
      i ∈ (deleteCategory st cid).categoryItems ↔ i ∈ st.categoryItems ∧ i.category_id ≠ cid) ∧
    (deleteCategory st cid).messages = st.messages ∧
    (deleteCategory st cid).sessions = st.sessions := by
  refine ⟨fun c => ?_, fun i => ?_, rfl, rfl⟩
  · simp [deleteCategory, List.mem_filter]
  · simp [deleteCategory, List.mem_filter]

/-! ### C9: tag update is a full replacement -/

/-- C9 — `updateTags` (the tags PATCH endpoint over `updateMessageTags`) is a
full replacement of the tag set, not additive: after updating a message to
`{"a"}` and then to `{"b"}`, the message carries exactly `some ["b"]`,
never `["a", "b"]`. -/
theorem updateMessageTags_is_full_replacement (st : Store) (mid : String) :
    ∀ m ∈ (apiPatchMessageTags (apiPatchMessageTags st mid ["a"]) mid ["b"]).messages,
      m.id = mid → m.tags = some ["b"] ∧ m.tags ≠ some ["a", "b"] := by
  intro m hm hid
  simp only [apiPatchMessageTags, updateMessageTags, List.mem_map] at hm
  obtain ⟨m1, hm1, rfl⟩ := hm
  by_cases h0 : m1.id = mid
  · simp [h0]
  · simp only [if_neg h0] at hid ⊢
    exact absurd hid h0

/-- Witness for C9 at a concrete one-row store: the row produced by the two
patches carries exactly `some ["b"]`. -/
theorem updateMessageTags_is_full_replacement_witness :
    (⟨"msg-1", "session-1", "user", "hello", "t0", some ["b"], none⟩ : DBMessage).tags
      = some ["b"] ∧
    (⟨"msg-1", "session-1", "user", "hello", "t0", some ["b"], none⟩ : DBMessage).tags
      ≠ some ["a", "b"] :=
  updateMessageTags_is_full_replacement
    ⟨[], [⟨"msg-1", "session-1", "user", "hello", "t0", none, none⟩], [], []⟩ "msg-1"
    ⟨"msg-1", "session-1", "user", "hello", "t0", some ["b"], none⟩ (by decide) rfl

/-! ### C10: delete-messages removes exactly the listed rows but reports the
request-list length -/

/-- C10 — For every non-empty `messageIds` list, the delete-messages endpoint
removes exactly the rows whose ids appear in the list, yet the `deleted` count
in the response is always the length of the request list — demonstrated not to
be the number of rows actually removed by a store holding one of two requested
ids, where one row disappears but `deleted = 2` is reported. -/
theorem apiDeleteMessages_removes_listed_reports_request_length
    (st : Store) (ids : List String) (h : ids ≠ []) :
    apiDeleteMessages st ids = .ok (deleteMessages st ids, ids.length) ∧
    (∀ m : DBMessage,
      m ∈ (deleteMessages st ids).messages ↔ m ∈ st.messages ∧ ¬ ids.contains m.id) ∧
    (deleteMessages
        ⟨[], [⟨"msg-1", "session-1", "user", "hello", "t0", none, none⟩], [], []⟩
        ["msg-1", "ghost"]).messages.length = 0 ∧
    apiDeleteMessages
        ⟨[], [⟨"msg-1", "session-1", "user", "hello", "t0", none, none⟩], [], []⟩
        ["msg-1", "ghost"]
      = .ok (⟨[], [], [], []⟩, 2) := by
  refine ⟨?_, fun m => ?_, by decide, rfl⟩
  · simp [apiDeleteMessages, List.isEmpty_iff, h]
  · simp [deleteMessages, List.mem_filter]

/-- Witness for C10 at a concrete store and id list. -/
theorem apiDeleteMessages_removes_listed_reports_request_length_witness :
    apiDeleteMessages ⟨[], [], [], []⟩ ["x"] = .ok (deleteMessages ⟨[], [], [], []⟩ ["x"], 1) :=
  (apiDeleteMessages_removes_listed_reports_request_length ⟨[], [], [], []⟩ ["x"] (by decide)).1

/-- Counterexample for C5 — the claim that a non-empty `tags` list restricts
the result to atoms whose tag set intersects `tags` is false: with
`tags = ["a"]` the collaborator atom tagged `["b"]` is returned anyway.  The
claim that with empty `tags` all collaborator atoms pass through is also
false: an atom with empty text is dropped. -/
theorem getRelevantMemories_ignores_tags_counterexample :
    getRelevantMemories true (.ok [⟨some "likes tea", none, none, some ["b"], none⟩]) "u" "q" ["a"]
      = [⟨"likes tea", "history", ["b"]⟩] ∧
    ((["b"] : List String).any fun t => (["a"] : List String).contains t) = false ∧
    getRelevantMemories true (.ok [⟨none, none, some "preference", some ["a"], none⟩]) "u" "q" []
      = [] :=
  ⟨rfl, rfl, rfl⟩

/-- C5 (amended) — `retrieveMemories` returns exactly the collaborator atoms
with non-empty text, regardless of the `tags` argument (the current revision
deliberately does not filter by tags); on collaborator failure, or when the
memory client is not configured, the result is the empty list. -/
theorem getRelevantMemories_keeps_nonempty_text_ignores_tags
    (items : List Mem0SearchItem) (userId query : String) (tags : List String) :
    (∀ a : MemoryAtom,
      a ∈ getRelevantMemories true (.ok items) userId query tags ↔
        (∃ item ∈ items, mem0ItemToAtom item = a) ∧ a.text ≠ "") ∧
    getRelevantMemories true (.ok items) userId query tags
      = getRelevantMemories true (.ok items) userId query [] ∧
    (∀ configured : Bool, getRelevantMemories configured (.error ()) userId query tags = []) ∧
    getRelevantMemories false (.ok items) userId query tags = [] := by
  refine ⟨fun a => ?_, rfl, fun configured => ?_, rfl⟩
  · have hdef : getRelevantMemories true (.ok items) userId query tags
        = (items.map mem0ItemToAtom).filter fun m => 0 < m.text.length := rfl
    rw [hdef]
    constructor
    · intro h
      obtain ⟨hmem, hpos⟩ := List.mem_filter.1 h
      obtain ⟨item, hit, rfl⟩ := List.mem_map.1 hmem
      exact ⟨⟨item, hit, rfl⟩, (string_pos_length_iff _).1 (of_decide_eq_true hpos)⟩
    · rintro ⟨⟨item, hit, rfl⟩, hne⟩
      exact List.mem_filter.2
        ⟨List.mem_map.2 ⟨item, hit, rfl⟩, decide_eq_true ((string_pos_length_iff _).2 hne)⟩
  · cases configured <;> rfl

/-- Counterexample for C6 — an utterance containing the "remember that"
trigger yields exactly one atom, and its type is the string "history", not
"note" (the `MemoryType` union has no `note` member). -/
theorem note_trigger_emits_history_counterexample :
    candidateMemories "remember that the demo is in may" ["ops"]
      = [⟨"User note: remember that the demo is in may", "history", ["ops"]⟩] ∧
    ("history" : String) ≠ "note" :=
  ⟨rfl, by decide⟩

/-- C6 (amended) — the classify step applies the trigger-phrase rule table
non-exclusively (when both a preference trigger and a note trigger fire, both
atoms are emitted), every utterance containing one of "remember that",
"remember this", "note that", "keep in mind" yields an atom of type
`history` (the code has no `note` type) with the utterance as text, and every
emitted atom inherits the caller-supplied tag set verbatim. -/
theorem candidateMemories_note_rule_and_tags_verbatim
    (content : String) (tags : List String)
    (hnote : noteTriggers.any (fun p => strContains (lowerStr content) p) = true) :
    (⟨"User note: " ++ content, "history", tags⟩ : MemoryAtom) ∈ candidateMemories content tags ∧
    (∀ a ∈ candidateMemories content tags, a.tags = tags) ∧
    (preferenceTriggers.any (fun p => strContains (lowerStr content) p) = true →
      (⟨"User preference: " ++ content, "preference", tags⟩ : MemoryAtom)
        ∈ candidateMemories content tags) := by
  refine ⟨?_, ?_, ?_⟩
  · apply List.mem_append_right
    rw [if_pos hnote]
    simp
  · intro a ha
    simp only [candidateMemories, List.mem_append] at ha
    rcases ha with ((h | h) | h) | h <;> rw [mem_if_singleton h]
  · intro hpref
    apply List.mem_append_left
    apply List.mem_append_left
    apply List.mem_append_left
    rw [if_pos hpref]
    simp

/-- Witness for C6 (amended) at the utterance
"i prefer tea, remember that i do" with tags `["ops"]`. -/
theorem candidateMemories_note_rule_witness :
    (⟨"User note: i prefer tea, remember that i do", "history", ["ops"]⟩ : MemoryAtom)
      ∈ candidateMemories "i prefer tea, remember that i do" ["ops"] ∧
    (∀ a ∈ candidateMemories "i prefer tea, remember that i do" ["ops"], a.tags = ["ops"]) ∧
    (preferenceTriggers.any
        (fun p => strContains (lowerStr "i prefer tea, remember that i do") p) = true →
      (⟨"User preference: i prefer tea, remember that i do", "preference", ["ops"]⟩ : MemoryAtom)
        ∈ candidateMemories "i prefer tea, remember that i do" ["ops"]) :=
  candidateMemories_note_rule_and_tags_verbatim "i prefer tea, remember that i do" ["ops"]
    (by decide)

/-- C4 — for every valid `/api/chat` request, the user message is durably
inserted into the message store before any memory or knowledge collaborator
call (the event trace puts the insert strictly first), and the inserted
message is in the resulting store for every combination of collaborator
outcomes — in particular when both the memory search and the knowledge search
fail. -/
theorem user_message_durable_before_enrichment
    (st : Store) (req : ChatRequest) (memConfigured : Bool)
    (memSearch : Except Unit (List Mem0SearchItem)) (ragSearch : Except Unit (List RAGDocument))
    (sid mid ts : String) (now : Int) (latestUser : ReqMessage)
    (huid : req.userId ≠ "")
    (hlu : req.messages.reverse.find? (fun m => m.role == "user") = some latestUser) :
    (∃ m ∈ (apiChatHandler st req memConfigured memSearch ragSearch sid mid ts now).1.messages,
        m.id = mid ∧ m.role = "user" ∧ m.content = latestUser.content) ∧
    (apiChatHandler st req memConfigured memSearch ragSearch sid mid ts now).2.2
      = [ChatEvent.insertUserMessage mid,
         ChatEvent.memoryPersist (candidateMemories latestUser.content req.tags),
         ChatEvent.memorySearch latestUser.content,
         ChatEvent.knowledgeSearch (req.tags.head?.getD "default") latestUser.content] := by
  have hne : req.messages.isEmpty = false := by
    cases hmsg : req.messages with
    | nil => rw [hmsg] at hlu; simp at hlu
    | cons a l => rfl
  unfold apiChatHandler
  rw [if_neg (by simp [huid, hne]), hlu]
  cases ragSearch with
  | ok docs =>
      refine ⟨⟨{ id := mid, session_id := (getOrCreateSession st req.userId sid now).2
                 role := "user", content := latestUser.content, timestamp := ts
                 tags := if req.tags.isEmpty then none else some req.tags
                 attachments := req.attachments }, ?_, rfl, rfl, rfl⟩, rfl⟩
      simp [insertMessage, touchSession]
  | error e =>
      refine ⟨⟨{ id := mid, session_id := (getOrCreateSession st req.userId sid now).2
                 role := "user", content := latestUser.content, timestamp := ts
                 tags := if req.tags.isEmpty then none else some req.tags
                 attachments := req.attachments }, ?_, rfl, rfl, rfl⟩, rfl⟩
      simp [insertMessage, touchSession]

/-- Witness for C4: a concrete request with both collaborators failing still
leaves the user message in the store, after the insert event. -/
theorem user_message_durable_before_enrichment_witness :
    (∃ m ∈ (apiChatHandler ⟨[], [], [], []⟩
        ⟨"demo-user", [⟨"user", "hello there"⟩], [], none⟩ true (.error ()) (.error ())
        "session-1" "msg-1" "t0" 0).1.messages,
        m.id = "msg-1" ∧ m.role = "user" ∧ m.content = "hello there") ∧
    (apiChatHandler ⟨[], [], [], []⟩
        ⟨"demo-user", [⟨"user", "hello there"⟩], [], none⟩ true (.error ()) (.error ())
        "session-1" "msg-1" "t0" 0).2.2
      = [ChatEvent.insertUserMessage "msg-1",
         ChatEvent.memoryPersist (candidateMemories "hello there" []),
         ChatEvent.memorySearch "hello there",
         ChatEvent.knowledgeSearch "default" "hello there"] :=
  user_message_durable_before_enrichment ⟨[], [], [], []⟩
    ⟨"demo-user", [⟨"user", "hello there"⟩], [], none⟩ true (.error ()) (.error ())
    "session-1" "msg-1" "t0" 0 ⟨"user", "hello there"⟩ (by decide) rfl

/-! ### C1: every decision action unconditionally returns the machine to IDLE -/

theorem continueAfter_main_clears (w : World) (categoryId : String)
    (completion : Except Unit GrokResult) (fr : FreshIds) (pmid : String)
    (tr : List GrokMessage) (tcid : String)
    (hpm : w.client.pendingUserMessageId = some pmid) (hpm0 : pmid ≠ "")
    (htr : w.client.pendingGrokMessages = some tr)
    (htc : w.client.pendingToolCallId = some tcid) (htc0 : tcid ≠ "") :
    ((continueAfterCategorySuggestion w categoryId completion fr).1.client.pendingSuggestion = none ∧
     (continueAfterCategorySuggestion w categoryId completion fr).1.client.pendingMessageContent = none ∧
     (continueAfterCategorySuggestion w categoryId completion fr).1.client.pendingUserMessageId = none ∧
     (continueAfterCategorySuggestion w categoryId completion fr).1.client.pendingGrokMessages = none ∧
     (continueAfterCategorySuggestion w categoryId completion fr).1.client.pendingToolCallId = none ∧
     (continueAfterCategorySuggestion w categoryId completion fr).1.client.isAssistantTyping = false) ∧
    (completion = .error () →
      (continueAfterCategorySuggestion w categoryId completion fr).1.client.messages.length
        = w.client.messages.length) := by
  unfold continueAfterCategorySuggestion
  rw [hpm, htr, htc]
  cases completion with
  | ok r =>
      refine ⟨⟨?_, ?_, ?_, ?_, ?_, ?_⟩, fun h => nomatch h⟩ <;>
        simp [hpm0, htc0, clearPendingState]
  | error e =>
      refine ⟨⟨?_, ?_, ?_, ?_, ?_, ?_⟩, fun _ => ?_⟩ <;>
        simp [hpm0, htc0, clearPendingState]

/-- C1 — for every decision action on a `PendingSuggestion` (accept,
select-existing, force-fallback, dismiss) and for either outcome of the
follow-up completion call, the resolution routine clears every pending field
(`pendingSuggestion`, `pendingMessageContent`, `pendingUserMessageId`, the
stored prompt transcript and tool-call id) and turns the typing indicator off;
when the follow-up completion throws, the client message list keeps its
length, so no assistant message is appended. -/
theorem decision_resolution_unconditionally_returns_to_idle
    (w : World) (d : Decision) (completion : Except Unit GrokResult) (fr : FreshIds)
    (sug : CategorySuggestion) (pmid : String) (tr : List GrokMessage) (tcid : String)
    (hsug : w.client.pendingSuggestion = some sug)
    (hpm : w.client.pendingUserMessageId = some pmid) (hpm0 : pmid ≠ "")
    (htr : w.client.pendingGrokMessages = some tr)
    (htc : w.client.pendingToolCallId = some tcid) (htc0 : tcid ≠ "") :
    ((resolveDecision w d completion fr).1.client.pendingSuggestion = none ∧
     (resolveDecision w d completion fr).1.client.pendingMessageContent = none ∧
     (resolveDecision w d completion fr).1.client.pendingUserMessageId = none ∧
     (resolveDecision w d completion fr).1.client.pendingGrokMessages = none ∧
     (resolveDecision w d completion fr).1.client.pendingToolCallId = none ∧
     (resolveDecision w d completion fr).1.client.isAssistantTyping = false) ∧
    (completion = .error () →
      (resolveDecision w d completion fr).1.client.messages.length
        = w.client.messages.length) := by
  obtain ⟨⟨msgs, cats, typing, sid, ps, pmc, pumi, pgm, ptc, sl⟩, st⟩ := w
  have h1 : ps = some sug := hsug
  have h2 : pumi = some pmid := hpm
  have h3 : pgm = some tr := htr
  have h4 : ptc = some tcid := htc
  subst h1 h2 h3 h4
  cases d with
  | accept =>
      rcases hnc : sug.newCategory with _ | nc
      · simp only [resolveDecision, handleAcceptSuggestion, hnc, if_neg hpm0]
        exact continueAfter_main_clears _ _ completion fr pmid tr tcid rfl hpm0 rfl rfl htc0
      · by_cases hty : sug.type = "new"
        · simp only [resolveDecision, handleAcceptSuggestion, hnc, if_neg hpm0, if_pos hty]
          exact continueAfter_main_clears _ _ completion fr pmid tr tcid rfl hpm0 rfl rfl htc0
        · simp only [resolveDecision, handleAcceptSuggestion, hnc, if_neg hpm0, if_neg hty]
          exact continueAfter_main_clears _ _ completion fr pmid tr tcid rfl hpm0 rfl rfl htc0
  | selectExisting cid =>
      exact continueAfter_main_clears _ _ completion fr pmid tr tcid rfl hpm0 rfl rfl htc0
  | forceClosest =>
      exact continueAfter_main_clears _ _ completion fr pmid tr tcid rfl hpm0 rfl rfl htc0
  | dismiss =>
      exact continueAfter_main_clears _ _ completion fr pmid tr tcid rfl hpm0 rfl rfl htc0

/-- Witness for C1: dismissing the sample suggestion while the follow-up
completion throws still returns the machine to IDLE with no appended reply. -/
theorem decision_resolution_returns_to_idle_witness :
    (((resolveDecision sampleWorld .dismiss (.error ()) sampleFresh).1.client.pendingSuggestion = none ∧
      (resolveDecision sampleWorld .dismiss (.error ()) sampleFresh).1.client.pendingMessageContent = none ∧
      (resolveDecision sampleWorld .dismiss (.error ()) sampleFresh).1.client.pendingUserMessageId = none ∧
      (resolveDecision sampleWorld .dismiss (.error ()) sampleFresh).1.client.pendingGrokMessages = none ∧
      (resolveDecision sampleWorld .dismiss (.error ()) sampleFresh).1.client.pendingToolCallId = none ∧
      (resolveDecision sampleWorld .dismiss (.error ()) sampleFresh).1.client.isAssistantTyping = false) ∧
     (Except.error () = (Except.error () : Except Unit GrokResult) →
       (resolveDecision sampleWorld .dismiss (.error ()) sampleFresh).1.client.messages.length
         = sampleWorld.client.messages.length)) :=
  decision_resolution_unconditionally_returns_to_idle sampleWorld .dismiss (.error ()) sampleFresh
    ⟨"existing", some "ops", none, "fits ops"⟩ "user-1"
    [⟨"system", "sys", none⟩, ⟨"user", "plan the sprint", none⟩] "call-1"
    rfl rfl (by decide) rfl rfl (by decide)

/-! ### C2: the pending suggestion is a single slot, but sends are not
blocked while it is occupied -/

/-- Counterexample for C2 — a second send while `sampleClient` is suspended in
`AWAITING_TAG_DECISION` is neither rejected nor queued: the composer gate
checks only the typing flag, which is false while suspended, so the send
proceeds (the message list grows by the new user message) and the
completion's `suggest_category` reply silently replaces the pending
suggestion, losing the decision pending on the first message. -/
theorem second_send_replaces_pending_suggestion_counterexample :
    composerDisabled sampleClient = false ∧
    sampleClient.pendingSuggestion = some ⟨"existing", some "ops", none, "fits ops"⟩ ∧
    (sendCurrentMessage sampleClient "book a flight to oslo" [] true sampleSecondSendEnv).map
        (fun r => r.1.pendingSuggestion)
      = some (some ⟨"new", none, some ⟨"Travel", none, none, none⟩, "new topic"⟩) ∧
    (⟨"new", none, some ⟨"Travel", none, none, none⟩, "new topic"⟩ : CategorySuggestion)
      ≠ ⟨"existing", some "ops", none, "fits ops"⟩ ∧
    (sendCurrentMessage sampleClient "book a flight to oslo" [] true sampleSecondSendEnv).map
        (fun r => r.1.messages.length)
      = some (sampleClient.messages.length + 1) :=
  ⟨rfl, rfl, rfl, by decide, rfl⟩

/-- C2 (amended) — the client can hold at most one `PendingSuggestion` (it
lives in a single state slot, so a later suggestion overwrites an earlier
one), but a second message submitted while `AWAITING_TAG_DECISION` is *not*
rejected or queued: the composer gate drops a send exactly when the
assistant-typing flag is set — a flag that is false while suspended — and
`handleSendMessage` never consults the pending state, so from any client
state whose typing flag is off (in particular a suspended one) a non-blank
send proceeds, appends the user message, and, when the completion again
answers with `suggest_category` first, silently replaces the pending
suggestion with the newly decoded one. -/
theorem pending_suggestion_single_slot_but_send_not_blocked
    (c : ClientState) (message : String) (tags : List String) (env : SendEnv)
    (rc : Option String) (tcid : String) (args : SuggestCategoryArgs) (rest : List ToolCall)
    (hgate : c.isAssistantTyping = false)
    (hmsg : strTrim message ≠ "")
    (hcomp : env.completion = .ok ⟨rc, ⟨tcid, .suggestCategory args⟩ :: rest⟩) :
    pendingCount c ≤ 1 ∧
    (∀ c0 : ClientState, c0.isAssistantTyping = true →
      sendCurrentMessage c0 message tags true env = none) ∧
    (sendCurrentMessage c message tags true env).map
        (fun r => (r.1.pendingSuggestion, r.1.isAssistantTyping, r.1.messages.length))
      = some (some ⟨args.suggestion_type, args.existing_category_id,
          args.new_category, args.reasoning⟩, false, c.messages.length + 1) := by
  refine ⟨?_, ?_, ?_⟩
  · unfold pendingCount
    rcases c.pendingSuggestion with _ | s <;> simp
  · intro c0 h0
    unfold sendCurrentMessage composerDisabled
    rw [h0]
    rfl
  · unfold sendCurrentMessage composerDisabled
    rw [hgate]
    simp only [Bool.false_eq_true, if_false, if_neg hmsg]
    unfold handleSendMessage
    rw [hcomp]
    rcases env.chatApi with _ | dat
    · simp [processToolCalls]
    · obtain ⟨um, rd, dsid, dmid⟩ := dat
      rcases dsid with _ | sid <;> simp [processToolCalls]

/-- Witness for C2 (amended) at the suspended sample client and the
concrete second-send environment. -/
theorem pending_suggestion_single_slot_but_send_not_blocked_witness :
    pendingCount sampleClient ≤ 1 ∧
    (∀ c0 : ClientState, c0.isAssistantTyping = true →
      sendCurrentMessage c0 "book a flight to oslo" [] true sampleSecondSendEnv = none) ∧
    (sendCurrentMessage sampleClient "book a flight to oslo" [] true sampleSecondSendEnv).map
        (fun r => (r.1.pendingSuggestion, r.1.isAssistantTyping, r.1.messages.length))
      = some (some ⟨"new", none, some ⟨"Travel", none, none, none⟩, "new topic"⟩, false,
          sampleClient.messages.length + 1) :=
  pending_suggestion_single_slot_but_send_not_blocked sampleClient "book a flight to oslo" []
    sampleSecondSendEnv none "call-2"
    ⟨"new", none, some ⟨"Travel", none, none, none⟩, "new topic"⟩ []
    rfl (by decide) rfl

/-! ### C3: the RESOLVING phase and the durable tag write -/

/-- C3 — evaluation of the resume routine at the sample world, where the
suspended user message has client id `user-1` and its durable copy has the
server-generated id `msg-1`.  The in-memory tag set becomes `["ops"]`, exactly
one tool-result entry bound to the stored tool-call id is appended to the
stored transcript, exactly one follow-up completion call is made offering no
tools, and the assistant reply is persisted tagged `["ops"]` — but the tags
PATCH is issued against `user-1`, so the durable row `msg-1` keeps its old
tag set: the durable half of the claimed tag replacement does not happen. -/
theorem resolving_updates_client_but_misses_durable_row :
    ((continueAfterCategorySuggestion sampleWorld "ops" (.ok ⟨some "Done."⟩)
        sampleFresh).1.client.messages.filter (fun m => m.id == "user-1")).map
        ClientMessage.tags = [some ["ops"]] ∧
    ((continueAfterCategorySuggestion sampleWorld "ops" (.ok ⟨some "Done."⟩)
        sampleFresh).1.store.messages.filter (fun m => m.id == "msg-1")).map
        DBMessage.tags = [none] ∧
    (continueAfterCategorySuggestion sampleWorld "ops" (.ok ⟨some "Done."⟩)
        sampleFresh).2.map CompletionCall.messages
      = [[⟨"system", "sys", none⟩, ⟨"user", "plan the sprint", none⟩,
          ⟨"assistant", "", none⟩,
          ⟨"tool", toolResultContent "ops" "Operations", some "call-1"⟩]] ∧
    (continueAfterCategorySuggestion sampleWorld "ops" (.ok ⟨some "Done."⟩)
        sampleFresh).2.map CompletionCall.tools = [[]] ∧
    ((continueAfterCategorySuggestion sampleWorld "ops" (.ok ⟨some "Done."⟩)
        sampleFresh).1.store.messages.filter (fun m => m.role == "assistant")).map
        DBMessage.tags = [some ["ops"]] :=
  ⟨rfl, rfl, rfl, rfl, rfl⟩

/-! ### C8: dismiss and force-fallback choose the store's first category -/

/-- C8 — for a client whose category list was loaded from the store, the
dismiss fallback and the force-fallback choose the same category id, namely
the id of the category the store lists first (`ORDER BY sort_order, id`). -/
theorem fallback_decisions_choose_first_store_category
    (st : Store) (c : ClientState) (cat0 : DBCategory)
    (hload : c.categories = loadedClientCategories st)
    (hhead : (getAllCategories st).head? = some cat0) :
    dismissFallbackCategoryId c = closestCategoryId c ∧
    closestCategoryId c = cat0.id := by
  refine ⟨rfl, ?_⟩
  unfold closestCategoryId
  rw [hload]
  unfold loadedClientCategories
  rw [List.head?_map, hhead]
  rfl

/-- Witness for C8: a store listing `zeta` before `ops` in insertion order
still yields `ops` (sort order 0) for both fallback decisions. -/
theorem fallback_decisions_choose_first_store_category_witness :
    dismissFallbackCategoryId sampleClientTwoCats = closestCategoryId sampleClientTwoCats ∧
    closestCategoryId sampleClientTwoCats = "ops" :=
  fallback_decisions_choose_first_store_category sampleStoreTwoCats sampleClientTwoCats
    ⟨"ops", "Operations", none, "Sparkles", "x", 0, 0⟩ rfl (by decide)

end GrokChat
